import Mathlib

/-!
Verification development for the `file-per-thread-logger` crate
(`src/lib.rs`).  The Rust source is shallowly embedded: the process-global
atomic `INITIALIZED`, the external `log` dispatch state (`set_boxed_logger`,
`set_max_level`) and the thread-local `WRITER` of the current thread are collected
in an explicit `ProcState`; panics (`expect`, `unwrap`) become
`Except.error`; `initialize` additionally returns a trace of the observable
actions it performed (configuration parse, file creation, flag store, logger
installation, warn/info messages).  The external crate `env_logger` is a
collaborator, not part of this repository, so a `Filter` is modelled
abstractly by its decision function and the builder is a parameter
`build : String → Filter` of `initialize`.
-/

namespace FPTL

/-- Severity levels of the `log` crate, most severe first. -/
inductive Level where
  | error
  | warn
  | info
  | debug
  | trace
deriving DecidableEq, Repr

/-- The `Display` impl of `log::Level` renders the upper-case name; this is what
`writeln!(…, "{} - {}", record.level(), …)` prints. -/
def Level.display : Level → String
  | .error => "ERROR"
  | .warn => "WARN"
  | .info => "INFO"
  | .debug => "DEBUG"
  | .trace => "TRACE"

/-- Model of `log::LevelFilter`; `LevelFilter::max()` is `Trace`. -/
inductive LevelFilter where
  | off
  | error
  | warn
  | info
  | debug
  | trace
deriving DecidableEq, Repr

/-- Model of `LevelFilter::max()`. -/
def LevelFilter.maxVal : LevelFilter := LevelFilter.trace

/-- Model of `log::Metadata`: the level and module-path target of a record. -/
structure Metadata where
  level : Level
  target : String
deriving DecidableEq, Repr

/-- Model of `env_logger::filter::Filter`, an external collaborator: modelled
abstractly by its decision function over metadata. -/
structure Filter where
  enabledFn : Metadata → Bool

/-- Model of `Filter::enabled(metadata)` of the external `env_logger` crate. -/
def Filter.enabled (f : Filter) (m : Metadata) : Bool := f.enabledFn m

/-- Model of `log::Record`: metadata plus the formatted message (`record.args()`). -/
structure Record where
  level : Level
  target : String
  args : String
deriving DecidableEq, Repr

/-- Model of `record.metadata()`. -/
def Record.metadata (r : Record) : Metadata := ⟨r.level, r.target⟩

/-- The thread-local `io::BufWriter<File>`: the path it was created with,
the lines appended so far, and whether the underlying handle fails I/O
(used to model write/flush errors). -/
structure Writer where
  path : String
  lines : List String
  ioFails : Bool
deriving DecidableEq, Repr

/-- Model of `writeln!(*writer, …)`: appends one line, or reports an I/O error
(returned, because the caller decides whether to swallow it). -/
def Writer.writeLine (w : Writer) (line : String) : Writer × Except String Unit :=
  if w.ioFails then (w, Except.error "io error")
  else ({ w with lines := w.lines ++ [line] }, Except.ok ())

/-- Model of `writer.flush()`: flushes the buffered handle, or reports an I/O error. -/
def Writer.flushBuf (w : Writer) : Writer × Except String Unit :=
  if w.ioFails then (w, Except.error "io error")
  else (w, Except.ok ())

/-- The line format of `log`, `"<LEVEL> - <message>\n"`. -/
def formatLine (lv : Level) (args : String) : String :=
  lv.display ++ " - " ++ args ++ "\n"

/-- The identity of the current thread: its optional name and its numeric
id (`thread::current().name()` / `.id()`). -/
structure ThreadDesc where
  name : Option String
  id : Nat
deriving DecidableEq, Repr

/-- The rendering `format!("{:?}", curthread.id())` produces as `ThreadId(n)`. -/
def threadIdRender (n : Nat) : String := "ThreadId(" ++ toString n ++ ")"

/-- The identifier chosen in `open_file`: the name of the thread if any, else
the debug rendering of its id. -/
def threadIdent (t : ThreadDesc) : String :=
  match t.name with
  | some nm => nm
  | none => threadIdRender t.id

/-- The sanitization predicate `ch.is_alphanumeric() || *ch == '-' || *ch == '_'`.
In Rust, `char::is_alphanumeric` is Unicode-wide; the model uses the ASCII
fragment, which is all the claims exercise. -/
def sanitizeKeep (c : Char) : Bool := c.isAlphanum || c == '-' || c == '_'

/-- The path computed in `open_file`: the caller-supplied prefix followed by
the sanitized thread identifier. -/
def openFilePath (pfx : String) (t : ThreadDesc) : String :=
  pfx ++ String.mk ((threadIdent t).data.filter sanitizeKeep)

/-- Model of `open_file`: creates the file at the computed path and wraps it in a
fresh buffered writer. -/
def open_file (pfx : String) (t : ThreadDesc) : Writer :=
  Writer.mk (openFilePath pfx t) [] false

/-- An `OsString` as returned by `env::var_os`: `toStr` is `some` exactly
when the bytes are valid UTF-8 (`OsStr::to_str`). -/
structure OsString where
  toStr : Option String
deriving DecidableEq, Repr

/-- The process environment: the `RUST_LOG` variable, if present. -/
structure Env where
  rustLog : Option OsString
deriving DecidableEq, Repr

/-- Process-global and current-thread state touched by the library:
the `INITIALIZED` atomic, whether the `log` dispatch already holds a boxed
logger, whether OUR sink is the one installed, the max level of the
dispatch, and the `WRITER` thread-local of the current thread. -/
structure ProcState where
  initialized : Bool
  loggerInstalled : Bool
  oursInstalled : Bool
  maxLevel : LevelFilter
  writer : Option Writer
deriving DecidableEq, Repr

/-- Model of `fn enabled() -> bool { INITIALIZED.load(Ordering::Relaxed) }`. -/
def enabledGlobal (s : ProcState) : Bool := s.initialized

/-- The sink type: holds the filter built from `RUST_LOG`. -/
structure FilePerThreadLogger where
  filter : Filter

/-- The panic message of the `expect` calls in `log` and `flush`; its
embedded apostrophe is spelled with `Char.ofNat 39`. -/
def expectInitMsg : String :=
  "call the logger" ++ String.singleton (Char.ofNat 39) ++ "s initialize() function first"

/-- The panic message of `Option::unwrap` on `None` (from
`val.to_str().unwrap()`). -/
def unwrapNoneMsg : String := "called Option::unwrap() on a None value"

/-- Model of `fn enabled` in `impl log::Log for FilePerThreadLogger`:
`enabled() && self.filter.enabled(metadata)`. -/
def FilePerThreadLogger.enabled (l : FilePerThreadLogger) (s : ProcState)
    (m : Metadata) : Bool :=
  enabledGlobal s && l.filter.enabled m

/-- Model of `fn log(&self, record: &Record)`: if enabled, write
`"<level> - <args>\n"` through the thread-local writer, panicking
(`expect`) when the writer was never initialized and discarding
(`let _ =`) the write result. -/
def FilePerThreadLogger.log (l : FilePerThreadLogger) (s : ProcState)
    (r : Record) : Except String ProcState :=
  if l.enabled s r.metadata then
    match s.writer with
    | none => Except.error expectInitMsg
    | some w =>
      let res := w.writeLine (formatLine r.level r.args)
      Except.ok { s with writer := some res.fst }
  else
    Except.ok s

/-- Model of `fn flush(&self)`: flush the thread-local writer, panicking (`expect`)
when it was never initialized and discarding (`let _ =`) the flush
result. -/
def FilePerThreadLogger.flush (l : FilePerThreadLogger) (s : ProcState) :
    Except String ProcState :=
  match s.writer with
  | none => Except.error expectInitMsg
  | some w =>
    let res := w.flushBuf
    Except.ok { s with writer := some res.fst }

/-- Observable actions performed by `initialize`, in program order. -/
inductive Event where
  | parseConfig (spec : String)
  | fileCreate (path : String)
  | storeFlag
  | setLoggerAttempt
  | setMaxLevel
  | warnMsg (msg : String)
  | infoMsg (msg : String)
deriving DecidableEq, Repr

/-- Recognizes a `fileCreate` event. -/
def Event.isFileCreate : Event → Bool
  | .fileCreate _ => true
  | _ => false

/-- Recognizes a `parseConfig` event. -/
def Event.isParseCfg : Event → Bool
  | .parseConfig _ => true
  | _ => false

/-- Recognizes a `warnMsg` event. -/
def Event.isWarn : Event → Bool
  | .warnMsg _ => true
  | _ => false

/-- The `warn!` message emitted when `set_boxed_logger` fails. -/
def warnAnotherLogger : String :=
  "Another logger has been set up before the file-per-thread logger, aborting."

/-- The final `info!` message of `initialize`. -/
def setUpLoggingMsg (pfx : String) : String :=
  "Set up logging; filename prefix is " ++ pfx

/-- Model of `pub fn initialize(filename_prefix: &str)` from `src/lib.rs`,
line by line:
1. `env::var_os("RUST_LOG").map(|val| { builder.parse(val.to_str().unwrap()); builder.build() })`
   — absent variable gives no filter; a non-UTF-8 value panics on `unwrap`;
   otherwise the external builder parses the directives.
2. If a filter was built, initialize the thread-local `WRITER` if it is
   still `None`, by `open_file(filename_prefix)`.
3. `if INITIALIZED.load(Relaxed) || level_filter.is_none() { return; }`.
4. `INITIALIZED.store(true, Relaxed)`.
5. `log::set_boxed_logger(...)` — fails when the dispatch already holds a
   logger; on success, `log::set_max_level(LevelFilter::max())`.
6. On failure, `warn!` about the other logger; in both cases the final
   `info!` runs.  The `warn!`/`info!` macro calls route through the
   external dispatch and are recorded as trace events.
The external builder is the parameter `build`; panics are `Except.error`. -/
def initializeFn (build : String → Filter) (env : Env) (pfx : String)
    (t : ThreadDesc) (s : ProcState) : Except String (ProcState × List Event) :=
  match env.rustLog with
  | none =>
    Except.ok (s, [])
  | some val =>
    match val.toStr with
    | none => Except.error unwrapNoneMsg
    | some spec =>
      let _filter := build spec
      let evParse : List Event := [Event.parseConfig spec]
      let sw : ProcState × List Event :=
        match s.writer with
        | some _ => (s, [])
        | none =>
          ({ s with writer := some (open_file pfx t) },
           [Event.fileCreate (openFilePath pfx t)])
      let s1 := sw.fst
      let evFile := sw.snd
      if s1.initialized then
        Except.ok (s1, evParse ++ evFile)
      else
        let s2 := { s1 with initialized := true }
        if s2.loggerInstalled then
          Except.ok (s2, evParse ++ evFile ++
            [Event.storeFlag, Event.setLoggerAttempt,
             Event.warnMsg warnAnotherLogger,
             Event.infoMsg (setUpLoggingMsg pfx)])
        else
          let s3 := { s2 with loggerInstalled := true, oursInstalled := true,
                              maxLevel := LevelFilter.maxVal }
          Except.ok (s3,
            evParse ++ evFile ++
            [Event.storeFlag, Event.setLoggerAttempt, Event.setMaxLevel,
             Event.infoMsg (setUpLoggingMsg pfx)])

/-- The trace of a successful `initialize` run (empty on panic). -/
def runTrace (r : Except String (ProcState × List Event)) : List Event :=
  match r with
  | Except.ok p => p.snd
  | Except.error _ => []

/-- A filter that admits every record (concrete instance for tests). -/
def allowAll : Filter := ⟨fun _ => true⟩

/-- The process state at startup: flag clear, no logger installed, no
thread-local writer. -/
def sZero : ProcState := ⟨false, false, false, LevelFilter.off, none⟩

/-- A sample named thread. -/
def sampleThread : ThreadDesc := ⟨some "worker-1", 1⟩

/-- A sample level-info record. -/
def sampleRecord : Record := ⟨Level.info, "app", "hello"⟩

/-- C1: `FilePerThreadLogger::enabled` returns true iff the global
`INITIALIZED` flag is set and the `env_logger` filter permits the
level and module path of the record. -/
theorem c1_enabled_iff (l : FilePerThreadLogger) (s : ProcState) (m : Metadata) :
    l.enabled s m = true ↔ (s.initialized = true ∧ l.filter.enabled m = true) := by
  simp [FilePerThreadLogger.enabled, enabledGlobal, Bool.and_eq_true]

/-- A state in which registration has happened but the current thread never
ran `initialize`: flag set, dispatch busy, no thread-local writer. -/
def sNoWriter : ProcState := ⟨true, true, true, LevelFilter.trace, none⟩

/-- C2 counterexample: a `log` call on a thread whose writer is absent
returns normally (no panic, no write) when the record is not enabled —
here because the global flag is still clear — so not every such call
fails loudly. -/
theorem c2_counterexample :
    sZero.writer = none ∧
    (FilePerThreadLogger.mk allowAll).log sZero sampleRecord = Except.ok sZero :=
  ⟨rfl, rfl⟩

/-- C2 (amended): with the thread-local writer absent, `flush` always
panics with the initialize-first diagnostic, and `log` panics with it
whenever the sink reports the record enabled; a disabled record returns
without touching the writer. -/
theorem c2_missing_writer_panics (l : FilePerThreadLogger) (s : ProcState)
    (r : Record) (hw : s.writer = none) :
    l.flush s = Except.error expectInitMsg ∧
    (l.enabled s r.metadata = true → l.log s r = Except.error expectInitMsg) := by
  constructor
  · unfold FilePerThreadLogger.flush
    rw [hw]
  · intro he
    unfold FilePerThreadLogger.log
    rw [if_pos he, hw]

/-- Witness for the amended C2 at a concrete state. -/
theorem c2_missing_writer_panics_witness :
    sNoWriter.writer = none ∧
    ((FilePerThreadLogger.mk allowAll).flush sNoWriter = Except.error expectInitMsg ∧
     ((FilePerThreadLogger.mk allowAll).enabled sNoWriter sampleRecord.metadata = true →
       (FilePerThreadLogger.mk allowAll).log sNoWriter sampleRecord =
         Except.error expectInitMsg)) :=
  ⟨rfl, c2_missing_writer_panics (FilePerThreadLogger.mk allowAll) sNoWriter sampleRecord rfl⟩

/-- C3: with `RUST_LOG` absent, `initialize` creates no file, changes no
state, performs no registration; and while the flag is clear the sink is
disabled for every record. -/
theorem c3_no_config_inert (build : String → Filter) (pfx : String)
    (t : ThreadDesc) (s : ProcState) :
    initializeFn build (Env.mk none) pfx t s = Except.ok (s, []) ∧
    (s.initialized = false →
      ∀ (l : FilePerThreadLogger) (m : Metadata), l.enabled s m = false) := by
  refine ⟨rfl, ?_⟩
  intro h l m
  simp [FilePerThreadLogger.enabled, enabledGlobal, h]

/-- Witness for C3 at a concrete startup state. -/
theorem c3_no_config_inert_witness :
    initializeFn (fun _ => allowAll) (Env.mk none) "log-" sampleThread sZero =
      Except.ok (sZero, []) ∧
    (FilePerThreadLogger.mk allowAll).enabled sZero (Metadata.mk Level.info "app") = false :=
  ⟨(c3_no_config_inert (fun _ => allowAll) "log-" sampleThread sZero).1,
   (c3_no_config_inert (fun _ => allowAll) "log-" sampleThread sZero).2 rfl
     (FilePerThreadLogger.mk allowAll) (Metadata.mk Level.info "app")⟩

/-- C8: an enabled record is appended to the file of the calling thread as the
single line `"<LEVEL> - <message>\n"`; in particular level-info `"hello"`
formats as exactly `"INFO - hello\n"`. -/
theorem c8_line_format (l : FilePerThreadLogger) (s : ProcState) (w : Writer)
    (r : Record) (hw : s.writer = some w) (hio : w.ioFails = false)
    (he : l.enabled s r.metadata = true) :
    l.log s r =
      Except.ok
        { s with writer := some { w with lines := w.lines ++ [formatLine r.level r.args] } } ∧
    formatLine Level.info "hello" = "INFO - hello\n" := by
  constructor
  · unfold FilePerThreadLogger.log
    rw [if_pos he, hw]
    simp [Writer.writeLine, hio]
  · rfl

/-- A fully initialized state for the sample thread. -/
def sReady : ProcState :=
  ⟨true, true, true, LevelFilter.trace, some (Writer.mk "log-worker-1" [] false)⟩

/-- Witness for C8: the concrete info/"hello" record. -/
theorem c8_line_format_witness :
    (FilePerThreadLogger.mk allowAll).log sReady sampleRecord =
      Except.ok
        { sReady with writer := some { Writer.mk "log-worker-1" [] false with lines := (Writer.mk "log-worker-1" [] false).lines ++ [formatLine sampleRecord.level sampleRecord.args] } } ∧
    formatLine Level.info "hello" = "INFO - hello\n" :=
  c8_line_format (FilePerThreadLogger.mk allowAll) sReady
    (Writer.mk "log-worker-1" [] false) sampleRecord rfl rfl rfl

/-- C9: on an initialized thread (writer present), `log` and `flush`
return normally whatever the underlying handle does: the I/O error is
discarded by the `let _ =` in the source. -/
theorem c9_io_error_swallowed (l : FilePerThreadLogger) (s : ProcState)
    (w : Writer) (r : Record) (hw : s.writer = some w) :
    (∃ s2, l.flush s = Except.ok s2) ∧ (∃ s3, l.log s r = Except.ok s3) := by
  constructor
  · refine ⟨{ s with writer := some (w.flushBuf).fst }, ?_⟩
    unfold FilePerThreadLogger.flush
    rw [hw]
  · by_cases he : l.enabled s r.metadata = true
    · refine ⟨{ s with writer := some (w.writeLine (formatLine r.level r.args)).fst }, ?_⟩
      unfold FilePerThreadLogger.log
      rw [if_pos he, hw]
    · refine ⟨s, ?_⟩
      unfold FilePerThreadLogger.log
      rw [if_neg he]

/-- Witness for C9 at a state whose handle fails all I/O. -/
def sBrokenIo : ProcState :=
  ⟨true, true, true, LevelFilter.trace, some (Writer.mk "log-worker-1" [] true)⟩

/-- Witness for C9: even with `ioFails`, both operations return `ok`. -/
theorem c9_io_error_swallowed_witness :
    sBrokenIo.writer = some (Writer.mk "log-worker-1" [] true) ∧
    ((∃ s2, (FilePerThreadLogger.mk allowAll).flush sBrokenIo = Except.ok s2) ∧
     (∃ s3, (FilePerThreadLogger.mk allowAll).log sBrokenIo sampleRecord = Except.ok s3)) :=
  ⟨rfl, c9_io_error_swallowed (FilePerThreadLogger.mk allowAll) sBrokenIo
    (Writer.mk "log-worker-1" [] true) sampleRecord rfl⟩

/-- C10: when `RUST_LOG` is present but not valid UTF-8, `initialize`
panics on the `unwrap` of `OsStr::to_str` before building any filter. -/
theorem c10_non_utf8_panics (build : String → Filter) (pfx : String)
    (t : ThreadDesc) (s : ProcState) :
    initializeFn build (Env.mk (some (OsString.mk none))) pfx t s =
      Except.error unwrapNoneMsg := rfl

/-- A state whose flag is already set, with a live writer (a thread that
already initialized, in a process where some call registered earlier). -/
def sFlagSet : ProcState :=
  ⟨true, true, false, LevelFilter.off, some (Writer.mk "p" [] false)⟩

/-- C5 counterexample: with the flag already true, a further `initialize`
call returns silently — its whole trace is the configuration parse — so
no warning is emitted, contrary to the claim. -/
theorem c5_counterexample :
    sFlagSet.initialized = true ∧
    runTrace (initializeFn (fun _ => allowAll)
        (Env.mk (some (OsString.mk (some "debug")))) "log-" sampleThread sFlagSet) =
      [Event.parseConfig "debug"] ∧
    List.filter Event.isWarn
      (runTrace (initializeFn (fun _ => allowAll)
        (Env.mk (some (OsString.mk (some "debug")))) "log-" sampleThread sFlagSet)) = [] :=
  ⟨rfl, rfl, rfl⟩

/-- C5 (amended): with a filter built and a writer already present, the
registration step behaves as follows.  If the flag is already true the
call is a silent no-op (no warning).  If the flag is false, the flag is
stored true FIRST and only then is the install into the dispatch
attempted; when the dispatch already holds a sink, a warning is emitted
through it and it keeps ownership (our sink is not installed); when it is
free, our sink is installed and the max level is raised to capture
everything. -/
theorem c5_registration (build : String → Filter) (spec pfx : String)
    (t : ThreadDesc) (s : ProcState) (w : Writer) (hw : s.writer = some w) :
    (s.initialized = true →
      initializeFn build (Env.mk (some (OsString.mk (some spec)))) pfx t s =
        Except.ok (s, [Event.parseConfig spec])) ∧
    (s.initialized = false → s.loggerInstalled = true →
      initializeFn build (Env.mk (some (OsString.mk (some spec)))) pfx t s =
        Except.ok ({ s with initialized := true },
          [Event.parseConfig spec, Event.storeFlag, Event.setLoggerAttempt,
           Event.warnMsg warnAnotherLogger, Event.infoMsg (setUpLoggingMsg pfx)])) ∧
    (s.initialized = false → s.loggerInstalled = false →
      initializeFn build (Env.mk (some (OsString.mk (some spec)))) pfx t s =
        Except.ok ({ s with initialized := true, loggerInstalled := true,
                            oursInstalled := true, maxLevel := LevelFilter.maxVal },
          [Event.parseConfig spec, Event.storeFlag, Event.setLoggerAttempt,
           Event.setMaxLevel, Event.infoMsg (setUpLoggingMsg pfx)])) := by
  refine ⟨?_, ?_, ?_⟩
  · intro hi
    simp [initializeFn, hw, hi]
  · intro hi hl
    simp [initializeFn, hw, hi, hl]
  · intro hi hl
    simp [initializeFn, hw, hi, hl]

/-- A pristine state that already holds a writer for the current thread. -/
def sThreadOnly : ProcState :=
  ⟨false, false, false, LevelFilter.off, some (Writer.mk "p" [] false)⟩

/-- Witness for the amended C5: the free-dispatch branch at a concrete
state. -/
theorem c5_registration_witness :
    initializeFn (fun _ => allowAll) (Env.mk (some (OsString.mk (some "debug"))))
        "log-" sampleThread sThreadOnly =
      Except.ok (ProcState.mk true true true LevelFilter.maxVal
          (some (Writer.mk "p" [] false)),
        [Event.parseConfig "debug", Event.storeFlag, Event.setLoggerAttempt,
         Event.setMaxLevel, Event.infoMsg (setUpLoggingMsg "log-")]) :=
  (c5_registration (fun _ => allowAll) "debug" "log-" sampleThread sThreadOnly
    (Writer.mk "p" [] false) rfl).2.2 rfl rfl

/-- A state where our sink is registered and the thread has its writer. -/
def sRegistered : ProcState :=
  ⟨true, true, true, LevelFilter.trace, some (Writer.mk "log-worker-1" [] false)⟩

/-- C7 counterexample: a later `initialize` call (flag already set) still
parses the configuration — its trace contains a parse event — so the
configuration is NOT read and parsed exactly once per process. -/
theorem c7_counterexample :
    sRegistered.initialized = true ∧
    runTrace (initializeFn (fun _ => allowAll)
        (Env.mk (some (OsString.mk (some "info")))) "log-" sampleThread sRegistered) =
      [Event.parseConfig "info"] :=
  ⟨rfl, rfl⟩

/-- C7 (amended): every `initialize` call with the variable present
re-reads and re-parses the configuration (exactly one parse event per
call); but once the flag is set no later call touches the dispatch again:
the installed sink and the installed flag are unchanged and no install is
attempted, so the installed Filter never changes for the life of the
process. -/
theorem c7_reparse_each_call (build : String → Filter)
    (spec pfx : String) (t : ThreadDesc) (s s2 : ProcState) (ev : List Event)
    (h : initializeFn build (Env.mk (some (OsString.mk (some spec)))) pfx t s =
      Except.ok (s2, ev)) :
    ev.filter Event.isParseCfg = [Event.parseConfig spec] ∧
    (s.initialized = true →
      s2.loggerInstalled = s.loggerInstalled ∧ s2.oursInstalled = s.oursInstalled ∧
      Event.setLoggerAttempt ∉ ev) := by
  rcases hsw : s.writer with _ | w <;>
    rcases hi : s.initialized with _ | _ <;>
      rcases hl : s.loggerInstalled with _ | _ <;>
        simp [initializeFn, hsw, hi, hl] at h <;>
          obtain ⟨h1, h2⟩ := h <;>
            subst h1 <;> subst h2 <;>
              simp [Event.isParseCfg, hi] <;> exact hl

/-- Witness for the amended C7 at a concrete later call. -/
theorem c7_reparse_each_call_witness :
    List.filter Event.isParseCfg [Event.parseConfig "info"] =
      [Event.parseConfig "info"] ∧
    (sRegistered.initialized = true →
      sRegistered.loggerInstalled = sRegistered.loggerInstalled ∧
      sRegistered.oursInstalled = sRegistered.oursInstalled ∧
      Event.setLoggerAttempt ∉ [Event.parseConfig "info"]) :=
  c7_reparse_each_call (fun _ => allowAll) "info" "log-" sampleThread sRegistered
    sRegistered [Event.parseConfig "info"] rfl

/-- C4: a first `initialize` on a thread without a writer creates exactly
one file and installs the fresh writer; a second call with the same prefix
leaves the writer untouched and creates no file (no truncation or
reopen). -/
theorem c4_second_call_noop (build : String → Filter) (spec pfx : String)
    (t : ThreadDesc) (s s1 : ProcState) (ev1 : List Event)
    (hw : s.writer = none)
    (h1 : initializeFn build (Env.mk (some (OsString.mk (some spec)))) pfx t s =
      Except.ok (s1, ev1)) :
    (ev1.filter Event.isFileCreate).length = 1 ∧
    s1.writer = some (open_file pfx t) ∧
    (∀ (s2 : ProcState) (ev2 : List Event),
      initializeFn build (Env.mk (some (OsString.mk (some spec)))) pfx t s1 =
        Except.ok (s2, ev2) →
      s2.writer = s1.writer ∧ ev2.filter Event.isFileCreate = []) := by
  have key : s1.writer = some (open_file pfx t) ∧ s1.initialized = true ∧
      (ev1.filter Event.isFileCreate).length = 1 := by
    rcases hi : s.initialized with _ | _ <;>
      rcases hl : s.loggerInstalled with _ | _ <;>
        simp [initializeFn, hw, hi, hl] at h1 <;>
          obtain ⟨h1a, h1b⟩ := h1 <;>
            subst h1a <;> subst h1b <;>
              simp [Event.isFileCreate, open_file, hi]
  refine ⟨key.2.2, key.1, ?_⟩
  intro s2 ev2 h2
  simp [initializeFn, key.1, key.2.1] at h2
  obtain ⟨h2a, h2b⟩ := h2
  subst h2a
  subst h2b
  simp [Event.isFileCreate]

/-- The state after the first `initialize` of the C4 witness. -/
def c4s1 : ProcState :=
  ProcState.mk true true true LevelFilter.maxVal (some (open_file "log-" sampleThread))

/-- The trace of the first `initialize` of the C4 witness. -/
def c4ev1 : List Event :=
  [Event.parseConfig "info", Event.fileCreate (openFilePath "log-" sampleThread),
   Event.storeFlag, Event.setLoggerAttempt, Event.setMaxLevel,
   Event.infoMsg (setUpLoggingMsg "log-")]

/-- Witness for C4: the concrete double call from the startup state. -/
theorem c4_second_call_noop_witness :
    (c4ev1.filter Event.isFileCreate).length = 1 ∧
    c4s1.writer = some (open_file "log-" sampleThread) ∧
    (∀ (s2 : ProcState) (ev2 : List Event),
      initializeFn (fun _ => allowAll)
          (Env.mk (some (OsString.mk (some "info")))) "log-" sampleThread c4s1 =
        Except.ok (s2, ev2) →
      s2.writer = c4s1.writer ∧ ev2.filter Event.isFileCreate = []) :=
  c4_second_call_noop (fun _ => allowAll) "info" "log-" sampleThread sZero
    c4s1 c4ev1 rfl rfl

/-- C6 counterexample: an empty prefix and a thread named `"!!!"` derive
the empty file name — the non-emptiness part of the claim fails. -/
theorem c6_counterexample : openFilePath "" (ThreadDesc.mk (some "!!!") 0) = "" := by
  decide

/-- C6 (amended): the file name is the caller-supplied prefix followed by
the thread identifier (its name if any, else the `ThreadId(n)` rendering)
with every character that is not alphanumeric, `-` or `_` removed; every
character after the prefix is of the kept class; the name is empty exactly
when the prefix is empty and no identifier character survives (so
non-emptiness can fail for a named thread), and it is always non-empty for
an unnamed thread. -/
theorem c6_file_name (pfx : String) (t : ThreadDesc) :
    (openFilePath pfx t).data =
      pfx.data ++ (threadIdent t).data.filter sanitizeKeep ∧
    (∀ c ∈ ((openFilePath pfx t).data).drop pfx.data.length, sanitizeKeep c = true) ∧
    (openFilePath pfx t = "" ↔
      pfx = "" ∧ (threadIdent t).data.filter sanitizeKeep = []) ∧
    (t.name = none → openFilePath pfx t ≠ "") := by
  have hdata : (openFilePath pfx t).data =
      pfx.data ++ (threadIdent t).data.filter sanitizeKeep := by
    simp [openFilePath, String.data_append]
  have hiff : openFilePath pfx t = "" ↔
      pfx = "" ∧ (threadIdent t).data.filter sanitizeKeep = [] := by
    simp [String.ext_iff, hdata]
  refine ⟨hdata, ?_, hiff, ?_⟩
  · intro c hc
    rw [hdata, List.drop_left] at hc
    exact (List.mem_filter.mp hc).2
  · intro hn h
    rcases hiff.mp h with ⟨h1, h2⟩
    have hne : (threadIdent t).data.filter sanitizeKeep ≠ [] := by
      have hti : threadIdent t = threadIdRender t.id := by simp [threadIdent, hn]
      rw [hti, threadIdRender, String.data_append, String.data_append,
        List.filter_append, List.filter_append]
      have h9 : ("ThreadId(" : String).data.filter sanitizeKeep =
          ['T', 'h', 'r', 'e', 'a', 'd', 'I', 'd'] := by decide
      rw [h9]
      simp
    exact hne h2

/-- Witness for the amended C6 at an unnamed thread with a real prefix. -/
theorem c6_file_name_witness :
    sanitizeKeep 'T' = true ∧ openFilePath "log-" (ThreadDesc.mk none 3) ≠ "" :=
  ⟨(c6_file_name "log-" (ThreadDesc.mk none 3)).2.1 'T' (by decide),
   (c6_file_name "log-" (ThreadDesc.mk none 3)).2.2.2 rfl⟩

end FPTL
